import Mathlib

/-!
Verification of the vLLM gateway / load balancer repository.

The gateway (gateway.py) authenticates callers against an api_keys table,
enforces a daily quota, and proxies inference calls to a vLLM backend.
The load balancer (load_balancer.py) tracks backend health and routes each
request to the healthy gateway with the fewest recorded requests.

We embed the relevant functions shallowly: the sqlite api_keys table is a
list of rows, timestamps are abstracted to calendar-day ordinals (the code
only ever compares dates), and external effects (json parsing, upstream
HTTP calls, usage-store writes) are parameters of the handler models.
-/

namespace Gateway

/-- A row of the api_keys table (gateway.py, init_database). -/
structure Credential where
  id : String
  name : String
  email : String
  api_key : String
  rate_limit : Nat
  daily_usage : Nat
  /-- date part of the stored last_used timestamp, as a day ordinal; none = NULL -/
  last_used : Option Nat
  is_active : Bool
deriving DecidableEq

/-- The dictionary returned by validate_api_key on success. -/
structure UserInfo where
  id : String
  name : String
  email : String
  rate_limit : Nat
  daily_usage : Nat
deriving DecidableEq

/-- A row of the usage_logs table. -/
structure UsageLog where
  api_key_id : String
  endpoint : String
  tokens_used : Nat
  timestamp : Nat
deriving DecidableEq

/-- validate_api_key: SELECT ... WHERE api_key = ? AND is_active = 1, first row. -/
def validate_api_key (db : List Credential) (api_key : String) : Option UserInfo :=
  match db.find? (fun r => r.api_key == api_key && r.is_active) with
  | some row => some ⟨row.id, row.name, row.email, row.rate_limit, row.daily_usage⟩
  | none => none

/-- check_rate_limit: reads rate_limit/daily_usage of the row with this
api_key (no is_active filter), resets daily_usage to 0 when the stored
last_used date is strictly before today, and admits iff the (possibly
reset) daily_usage is below rate_limit.  Returns the admit decision and
the committed table. -/
def check_rate_limit (db : List Credential) (api_key : String) (today : Nat) :
    Bool × List Credential :=
  match db.find? (fun r => r.api_key == api_key) with
  | none => (false, db)
  | some row =>
    match row.last_used with
    | some last_used_date =>
      if last_used_date < today then
        (decide (0 < row.rate_limit),
         db.map (fun r =>
           if r.api_key == api_key then { r with daily_usage := 0 } else r))
      else (decide (row.daily_usage < row.rate_limit), db)
    | none => (decide (row.daily_usage < row.rate_limit), db)

/-- log_usage: UPDATE api_keys SET daily_usage = daily_usage + ?,
last_used = now WHERE api_key = ?  (the handlers pass user_info.id for
this argument), then INSERT a usage_logs row. -/
def log_usage (db : List Credential) (logs : List UsageLog)
    (api_key : String) (endpoint : String) (tokens_used : Nat) (today : Nat) :
    List Credential × List UsageLog :=
  (db.map (fun r =>
     if r.api_key == api_key then
       { r with daily_usage := r.daily_usage + tokens_used, last_used := some today }
     else r),
   logs ++ [⟨api_key, endpoint, tokens_used, today⟩])

/-- The two request headers the gateway reads, plus the raw body. -/
structure GwRequest where
  x_api_key : Option String
  authorization : Option String
  body : String

/-- Python truthiness of an optional header value: absent or empty. -/
def optFalsy : Option String → Bool
  | none => true
  | some s => s.isEmpty

/-- get_client_key: x-api-key header, else a Bearer authorization header. -/
def get_client_key (req : GwRequest) : Option String :=
  let client_key := req.x_api_key
  if optFalsy client_key then
    match req.authorization with
    | some auth =>
      if auth.startsWith "Bearer " then some ((auth.replace "Bearer " "").trim)
      else client_key
    | none => client_key
  else client_key

/-- The HTTPExceptions raised by validate_and_check_rate_limit. -/
inductive GateError
  | missingKey
  | invalidKey
  | rateLimited
deriving DecidableEq

def GateError.status : GateError → Nat
  | .missingKey => 401
  | .invalidKey => 401
  | .rateLimited => 429

def GateError.detail : GateError → String
  | .missingKey => "Missing API key. Use x-api-key header or Authorization Bearer"
  | .invalidKey => "Invalid API key"
  | .rateLimited => "Rate limit exceeded. Try again tomorrow."

/-- validate_and_check_rate_limit: extract the key, validate it, then run
the quota check.  The table returned is the committed state (the
day-boundary reset commits even when the request is then rejected). -/
def validate_and_check_rate_limit (db : List Credential) (req : GwRequest) (today : Nat) :
    Except GateError UserInfo × List Credential :=
  let client_key := get_client_key req
  if optFalsy client_key then (.error .missingKey, db)
  else
    let ck := client_key.getD ""
    match validate_api_key db ck with
    | none => (.error .invalidKey, db)
    | some user_info =>
      match check_rate_limit db ck today with
      | (true, db1) => (.ok user_info, db1)
      | (false, db1) => (.error .rateLimited, db1)

/-- daily_usage as seen by the admit comparison, after any day-boundary reset. -/
def effective_usage (c : Credential) (today : Nat) : Nat :=
  match c.last_used with
  | some d => if d < today then 0 else c.daily_usage
  | none => c.daily_usage

/-- The module-level names bound by the import statements of gateway.py
(lines 1-16).  Note that json is not among them, although the completion
handlers call json.loads. -/
def gatewayImports : List String :=
  ["os", "sqlite3", "hashlib", "secrets", "time", "uuid",
   "datetime", "timedelta",
   "Optional", "List", "Dict", "Any",
   "FastAPI", "Request", "HTTPException", "Depends", "Header",
   "HTMLResponse", "JSONResponse", "StreamingResponse",
   "Jinja2Templates", "StaticFiles", "CORSMiddleware",
   "httpx", "load_dotenv"]

/-- Behaviour of the external collaborators during one handler run:
json.loads (some = the str() of the parsed object, none = it raises),
the upstream GET and POST (none = connection error or timeout; the inner
Option is the decoded response, none when response.json() raises), and
whether the usage store raises on write. -/
structure PyEnv where
  json_loads : String → Option String
  upstream_get : String → Option (Nat × Option String)
  upstream_post : String → String → Option (Nat × Option String)
  log_usage_fails : Bool

instance instDecEqExcept {ε α : Type} [DecidableEq ε] [DecidableEq α] :
    DecidableEq (Except ε α) := fun a b =>
  match a, b with
  | .error e, .error f =>
    if h : e = f then isTrue (by rw [h]) else isFalse (fun hh => by cases hh; exact h rfl)
  | .error _, .ok _ => isFalse (fun hh => Except.noConfusion hh)
  | .ok _, .error _ => isFalse (fun hh => Except.noConfusion hh)
  | .ok x, .ok y =>
    if h : x = y then isTrue (by rw [h]) else isFalse (fun hh => by cases hh; exact h rfl)

/-- Everything observable about one handler run: the HTTP outcome
(error (status, detail) or ok (status, body)), the committed api_keys
table, the usage_logs table, and how many upstream calls were attempted. -/
structure HandlerResult where
  response : Except (Nat × String) (Nat × String)
  db : List Credential
  logs : List UsageLog
  upstream_calls : Nat
deriving DecidableEq

/-- The detail prefix of the generic except-branch HTTPException of the
proxy handlers ("Error connecting to vLLM: ..."). -/
def errDetail : String := "Error connecting to vLLM"

/-- Token estimate computed by the completion handlers:
len(str(request_data)) // 4 + len(str(response_data)) // 4. -/
def estimate_tokens (request_data response_data : String) : Nat :=
  request_data.length / 4 + response_data.length / 4

/-- POST /v1/chat/completions.  The whole body after the gate sits in one
try whose except raises HTTP 500; json.loads(body) runs before the
upstream call, and log_usage runs after a successful upstream response. -/
def chat_completions (env : PyEnv) (db : List Credential) (logs : List UsageLog)
    (req : GwRequest) (today : Nat) : HandlerResult :=
  match validate_and_check_rate_limit db req today with
  | (.error e, db1) => ⟨.error (e.status, e.detail), db1, logs, 0⟩
  | (.ok user_info, db1) =>
    let body := req.body
    if "json" ∈ gatewayImports then
      match env.json_loads body with
      | none => ⟨.error (500, errDetail), db1, logs, 0⟩
      | some request_data =>
        match env.upstream_post "/chat/completions" body with
        | none => ⟨.error (500, errDetail), db1, logs, 1⟩
        | some (_status, none) => ⟨.error (500, errDetail), db1, logs, 1⟩
        | some (status, some response_data) =>
          let tokens_used := estimate_tokens request_data response_data
          if env.log_usage_fails then ⟨.error (500, errDetail), db1, logs, 1⟩
          else
            let (db2, logs2) :=
              log_usage db1 logs user_info.id "/v1/chat/completions" tokens_used today
            ⟨.ok (status, response_data), db2, logs2, 1⟩
    else ⟨.error (500, errDetail), db1, logs, 0⟩

/-- POST /v1/completions; identical shape to chat_completions. -/
def completions (env : PyEnv) (db : List Credential) (logs : List UsageLog)
    (req : GwRequest) (today : Nat) : HandlerResult :=
  match validate_and_check_rate_limit db req today with
  | (.error e, db1) => ⟨.error (e.status, e.detail), db1, logs, 0⟩
  | (.ok user_info, db1) =>
    let body := req.body
    if "json" ∈ gatewayImports then
      match env.json_loads body with
      | none => ⟨.error (500, errDetail), db1, logs, 0⟩
      | some request_data =>
        match env.upstream_post "/completions" body with
        | none => ⟨.error (500, errDetail), db1, logs, 1⟩
        | some (_status, none) => ⟨.error (500, errDetail), db1, logs, 1⟩
        | some (status, some response_data) =>
          let tokens_used := estimate_tokens request_data response_data
          if env.log_usage_fails then ⟨.error (500, errDetail), db1, logs, 1⟩
          else
            let (db2, logs2) :=
              log_usage db1 logs user_info.id "/v1/completions" tokens_used today
            ⟨.ok (status, response_data), db2, logs2, 1⟩
    else ⟨.error (500, errDetail), db1, logs, 0⟩

/-- GET /v1/models.  log_usage with cost 0 runs right after the upstream
GET returns; response.json() only runs afterwards, in the return. -/
def get_models (env : PyEnv) (db : List Credential) (logs : List UsageLog)
    (req : GwRequest) (today : Nat) : HandlerResult :=
  match validate_and_check_rate_limit db req today with
  | (.error e, db1) => ⟨.error (e.status, e.detail), db1, logs, 0⟩
  | (.ok user_info, db1) =>
    match env.upstream_get "/models" with
    | none => ⟨.error (500, errDetail), db1, logs, 1⟩
    | some (status, respJson) =>
      if env.log_usage_fails then ⟨.error (500, errDetail), db1, logs, 1⟩
      else
        let (db2, logs2) := log_usage db1 logs user_info.id "/v1/models" 0 today
        match respJson with
        | none => ⟨.error (500, errDetail), db2, logs2, 1⟩
        | some content => ⟨.ok (status, content), db2, logs2, 1⟩

end Gateway

namespace LB

/-- The LoadBalancer instance state: the fixed gateway list and the
health_status / request_counts dicts keyed by gateway URL. -/
structure LBState where
  gateways : List String
  health_status : String → Bool
  request_counts : String → Nat

/-- get_healthy_gateways. -/
def get_healthy_gateways (st : LBState) : List String :=
  st.gateways.filter st.health_status

/-- Python min(iterable, key=...): scans left to right and replaces the
current best only on a strictly smaller key, so the first minimum wins. -/
def pymin (key : String → Nat) (x : String) (xs : List String) : String :=
  xs.foldl (fun best y => if key y < key best then y else best) x

/-- request_counts[selected] += 1. -/
def incrCount (st : LBState) (selected : String) : LBState :=
  { st with request_counts := fun g =>
      if g = selected then st.request_counts g + 1 else st.request_counts g }

/-- The HTTPException raised by select_gateway when no gateway is healthy. -/
inductive LBError
  | noHealthy
deriving DecidableEq

def LBError.status : LBError → Nat
  | .noHealthy => 503

/-- select_gateway: raises when no gateway is healthy, else dispatches on
the strategy name.  random.choice is modelled by the randIdx parameter;
every other branch picks the min-count healthy gateway and increments its
counter. -/
def select_gateway (st : LBState) (strategy : String) (randIdx : Nat) :
    Except LBError (String × LBState) :=
  match get_healthy_gateways st with
  | [] => .error .noHealthy
  | g :: gs =>
    if strategy = "round_robin" then
      let selected := pymin st.request_counts g gs
      .ok (selected, incrCount st selected)
    else if strategy = "random" then
      .ok ((g :: gs).getD (randIdx % (g :: gs).length) g, st)
    else if strategy = "least_connections" then
      let selected := pymin st.request_counts g gs
      .ok (selected, incrCount st selected)
    else
      let selected := pymin st.request_counts g gs
      .ok (selected, incrCount st selected)

/-- A call of select_gateway that leaves the strategy argument at its
Python default value. -/
def select_gateway_default (st : LBState) (randIdx : Nat) :
    Except LBError (String × LBState) :=
  select_gateway st "round_robin" randIdx

/-- Everything observable about one proxy_all run: the HTTP outcome, the
balancer state afterwards, and the (gateway, path) upstream attempts made. -/
structure ProxyOutcome where
  response : Except (Nat × String) (Nat × String)
  st : LBState
  attempts : List (String × String)

/-- proxy_request: forwards to one gateway; on any upstream exception it
raises HTTPException 502 "Gateway error: ...".  The upstream environment
maps (gateway, path) to some response or none for a failure. -/
def proxy_request (env : String → String → Option (Nat × String))
    (gateway path : String) : Except (Nat × String) (Nat × String) :=
  match env gateway path with
  | some resp => .ok resp
  | none => .error (502, "Gateway error")

/-- proxy_all: selects a gateway with strategy "round_robin" and forwards
the request; its except branch catches every exception raised inside the
try - including the 502 of proxy_request and the 503 of select_gateway -
and raises HTTPException 503 "Service temporarily unavailable". -/
def proxy_all (env : String → String → Option (Nat × String))
    (st : LBState) (randIdx : Nat) (path : String) : ProxyOutcome :=
  match select_gateway st "round_robin" randIdx with
  | .error _ => ⟨.error (503, "Service temporarily unavailable"), st, []⟩
  | .ok (gateway, st1) =>
    match proxy_request env gateway path with
    | .error _ => ⟨.error (503, "Service temporarily unavailable"), st1, [(gateway, path)]⟩
    | .ok resp => ⟨.ok resp, st1, [(gateway, path)]⟩

/-- Status code seen by the caller. -/
def respStatus : Except (Nat × String) (Nat × String) → Nat
  | .error (s, _) => s
  | .ok (s, _) => s

end LB

namespace Gateway

/-- The UserInfo dictionary built from a credential row. -/
def Credential.toUserInfo (c : Credential) : UserInfo :=
  ⟨c.id, c.name, c.email, c.rate_limit, c.daily_usage⟩

theorem find?_active_of_find? (db : List Credential) (key : String) (c : Credential)
    (hfind : db.find? (fun r => r.api_key == key) = some c)
    (hact : c.is_active = true) :
    db.find? (fun r => r.api_key == key && r.is_active) = some c := by
  induction db with
  | nil => simp at hfind
  | cons r rest ih =>
    by_cases h : r.api_key = key
    · rw [List.find?_cons_of_pos _ (by simp [h])] at hfind
      cases hfind
      exact List.find?_cons_of_pos _ (by simp [h, hact])
    · rw [List.find?_cons_of_neg _ (by simp [h])] at hfind
      rw [List.find?_cons_of_neg _ (by simp [h])]
      exact ih hfind

theorem validate_api_key_found (db : List Credential) (key : String) (c : Credential)
    (hfind : db.find? (fun r => r.api_key == key) = some c)
    (hact : c.is_active = true) :
    validate_api_key db key = some c.toUserInfo := by
  unfold validate_api_key
  rw [find?_active_of_find? db key c hfind hact]
  rfl

theorem validate_api_key_none (db : List Credential) (key : String)
    (hbad : ∀ r ∈ db, r.api_key = key → r.is_active = false) :
    validate_api_key db key = none := by
  unfold validate_api_key
  have : db.find? (fun r => r.api_key == key && r.is_active) = none := by
    rw [List.find?_eq_none]
    intro r hr hp
    simp only [Bool.and_eq_true, beq_iff_eq] at hp
    rw [hbad r hr hp.1] at hp
    exact Bool.false_ne_true hp.2
  rw [this]

theorem check_rate_limit_no_reset (db : List Credential) (key : String) (today : Nat)
    (c : Credential) (hfind : db.find? (fun r => r.api_key == key) = some c)
    (hstale : ∀ d, c.last_used = some d → ¬ d < today) :
    check_rate_limit db key today = (decide (c.daily_usage < c.rate_limit), db) := by
  cases hl : c.last_used with
  | none => simp [check_rate_limit, hfind, hl]
  | some d => simp [check_rate_limit, hfind, hl, hstale d hl]

theorem check_rate_limit_reset (db : List Credential) (key : String) (today : Nat)
    (c : Credential) (d : Nat)
    (hfind : db.find? (fun r => r.api_key == key) = some c)
    (hlast : c.last_used = some d) (hd : d < today) :
    check_rate_limit db key today =
      (decide (0 < c.rate_limit),
       db.map (fun r => if r.api_key == key then { r with daily_usage := 0 } else r)) := by
  simp [check_rate_limit, hfind, hlast, hd]

theorem gate_unfold (db : List Credential) (req : GwRequest) (today : Nat)
    (key : String) (u : UserInfo) (b : Bool) (db1 : List Credential)
    (hkey : get_client_key req = some key) (hne : key ≠ "")
    (hval : validate_api_key db key = some u)
    (hchk : check_rate_limit db key today = (b, db1)) :
    validate_and_check_rate_limit db req today =
      (if b then .ok u else .error .rateLimited, db1) := by
  have hfalsy : optFalsy (some key) = false := by
    simp only [optFalsy]
    exact (Bool.not_eq_true _).mp (fun h => hne ((String.isEmpty_iff key).mp h))
  unfold validate_and_check_rate_limit
  rw [hkey]
  simp only [hfalsy, Bool.false_eq_true, if_false, Option.getD_some, hval, hchk]
  cases b <;> rfl

/-- C1.  With the caller presenting the secret of the stored row c (the
first row with that api_key, active), the gate admits exactly when the
post-reset daily_usage is below rate_limit; in particular a stored
daily_usage below rate_limit is always admitted, and at or above the
limit (after any reset) the request fails with the 429 rate-limit error. -/
theorem quota_gate_admits_iff_below_limit (db : List Credential) (req : GwRequest)
    (today : Nat) (key : String) (c : Credential)
    (hkey : get_client_key req = some key) (hne : key ≠ "")
    (hfind : db.find? (fun r => r.api_key == key) = some c)
    (hact : c.is_active = true) :
    ((validate_and_check_rate_limit db req today).1 =
       if effective_usage c today < c.rate_limit then .ok c.toUserInfo
       else .error .rateLimited) ∧
    (c.daily_usage < c.rate_limit → effective_usage c today < c.rate_limit) ∧
    GateError.status .rateLimited = 429 := by
  have hval := validate_api_key_found db key c hfind hact
  refine ⟨?_, ?_, rfl⟩
  · cases hl : c.last_used with
    | none =>
      have hchk := check_rate_limit_no_reset db key today c hfind
        (by intro d hd; rw [hl] at hd; exact absurd hd (by simp))
      rw [gate_unfold db req today key c.toUserInfo _ _ hkey hne hval hchk]
      simp only [effective_usage, hl]
      by_cases hlt : c.daily_usage < c.rate_limit <;> simp [hlt]
    | some d =>
      by_cases hd : d < today
      · have hchk := check_rate_limit_reset db key today c d hfind hl hd
        rw [gate_unfold db req today key c.toUserInfo _ _ hkey hne hval hchk]
        simp only [effective_usage, hl, if_pos hd]
        by_cases hlt : 0 < c.rate_limit <;> simp [hlt]
      · have hchk := check_rate_limit_no_reset db key today c hfind
          (by intro e he; rw [hl] at he; cases he; exact hd)
        rw [gate_unfold db req today key c.toUserInfo _ _ hkey hne hval hchk]
        simp only [effective_usage, hl, if_neg hd]
        by_cases hlt : c.daily_usage < c.rate_limit <;> simp [hlt]
  · intro hlt
    unfold effective_usage
    cases hl : c.last_used with
    | none => exact hlt
    | some d =>
      by_cases hd : d < today
      · simpa [hd] using Nat.lt_of_le_of_lt (Nat.zero_le _) hlt
      · simpa [hd] using hlt

/-- C1 witness: a concrete active credential with daily_usage 7 < 100 is
admitted. -/
theorem quota_gate_admits_witness :
    ((validate_and_check_rate_limit
        [⟨"id1", "alice", "alice@example.com", "key1", 100, 7, some 5, true⟩]
        ⟨some "key1", none, ""⟩ 5).1 =
      if effective_usage ⟨"id1", "alice", "alice@example.com", "key1", 100, 7, some 5, true⟩ 5 <
          (100 : Nat) then
        .ok (Credential.toUserInfo ⟨"id1", "alice", "alice@example.com", "key1", 100, 7, some 5, true⟩)
      else .error .rateLimited) ∧
    ((7 : Nat) < 100 →
      effective_usage ⟨"id1", "alice", "alice@example.com", "key1", 100, 7, some 5, true⟩ 5 < 100) ∧
    GateError.status .rateLimited = 429 :=
  quota_gate_admits_iff_below_limit
    [⟨"id1", "alice", "alice@example.com", "key1", 100, 7, some 5, true⟩]
    ⟨some "key1", none, ""⟩ 5 "key1"
    ⟨"id1", "alice", "alice@example.com", "key1", 100, 7, some 5, true⟩
    (by rfl) (by decide) (by rfl) (by rfl)

theorem optFalsy_some_of_ne (key : String) (hne : key ≠ "") :
    optFalsy (some key) = false := by
  simp only [optFalsy]
  exact (Bool.not_eq_true _).mp (fun h => hne ((String.isEmpty_iff key).mp h))

/-- C2.  A credential whose stored last_used date is day d and whose
daily_usage is k > 0 is admitted by the gate on day d+1 (given rate_limit
positive): the quota check resets daily_usage to 0 in the table before
comparing against rate_limit. -/
theorem day_boundary_reset_admits (db : List Credential) (req : GwRequest)
    (key : String) (c : Credential) (d k : Nat)
    (hkey : get_client_key req = some key) (hne : key ≠ "")
    (hfind : db.find? (fun r => r.api_key == key) = some c)
    (hact : c.is_active = true)
    (hlast : c.last_used = some d) (_husage : c.daily_usage = k) (_hk : 0 < k)
    (hrl : 0 < c.rate_limit) :
    (validate_and_check_rate_limit db req (d + 1)).1 = .ok c.toUserInfo ∧
    ∀ r ∈ (validate_and_check_rate_limit db req (d + 1)).2,
      r.api_key = key → r.daily_usage = 0 := by
  have hval := validate_api_key_found db key c hfind hact
  have hchk := check_rate_limit_reset db key (d + 1) c d hfind hlast (Nat.lt_succ_self d)
  rw [gate_unfold db req (d + 1) key c.toUserInfo _ _ hkey hne hval hchk]
  constructor
  · simp [hrl]
  · intro r hr hrk
    simp only [List.mem_map] at hr
    obtain ⟨a, _, hfa⟩ := hr
    by_cases hak : a.api_key = key
    · rw [← hfa]
      simp [hak]
    · rw [← hfa] at hrk
      simp only [beq_iff_eq, if_neg hak] at hrk
      exact absurd hrk hak

/-- C2 witness: a credential 32 requests over its limit of 10 on day 5 is
admitted on day 6, and its stored daily_usage is reset to 0. -/
theorem day_boundary_reset_witness :
    (validate_and_check_rate_limit
        [⟨"id2", "bob", "bob@example.com", "key2", 10, 42, some 5, true⟩]
        ⟨some "key2", none, ""⟩ 6).1 =
      .ok (Credential.toUserInfo ⟨"id2", "bob", "bob@example.com", "key2", 10, 42, some 5, true⟩) :=
  (day_boundary_reset_admits
    [⟨"id2", "bob", "bob@example.com", "key2", 10, 42, some 5, true⟩]
    ⟨some "key2", none, ""⟩ "key2"
    ⟨"id2", "bob", "bob@example.com", "key2", 10, 42, some 5, true⟩ 5 42
    (by rfl) (by decide) (by rfl) (by rfl) (by rfl) (by rfl) (by decide) (by decide)).1

/-- C4.  When every stored row carrying the presented secret is inactive
(in particular when no row carries it), the gate fails with the 401
invalid-key error and the table is untouched, whatever the quota fields
of any row are. -/
theorem unknown_or_inactive_secret_401 (db : List Credential) (req : GwRequest)
    (today : Nat) (key : String)
    (hkey : get_client_key req = some key) (hne : key ≠ "")
    (hbad : ∀ r ∈ db, r.api_key = key → r.is_active = false) :
    validate_and_check_rate_limit db req today = (.error .invalidKey, db) ∧
    GateError.status .invalidKey = 401 := by
  have hval := validate_api_key_none db key hbad
  refine ⟨?_, rfl⟩
  unfold validate_and_check_rate_limit
  rw [hkey]
  simp only [optFalsy_some_of_ne key hne, Bool.false_eq_true, if_false,
    Option.getD_some, hval]

/-- C4 witness: an inactive credential with plenty of quota left is still
rejected with 401. -/
theorem unknown_or_inactive_secret_401_witness :
    validate_and_check_rate_limit
        [⟨"id3", "eve", "eve@example.com", "key3", 100, 0, none, false⟩]
        ⟨some "key3", none, ""⟩ 3 =
      (.error .invalidKey,
       [⟨"id3", "eve", "eve@example.com", "key3", 100, 0, none, false⟩]) ∧
    GateError.status .invalidKey = 401 :=
  unknown_or_inactive_secret_401
    [⟨"id3", "eve", "eve@example.com", "key3", 100, 0, none, false⟩]
    ⟨some "key3", none, ""⟩ 3 "key3" (by rfl) (by decide) (by decide)

theorem chat_completions_always_500 (env : PyEnv) (db : List Credential)
    (logs : List UsageLog) (req : GwRequest) (today : Nat) (user : UserInfo)
    (db1 : List Credential)
    (h : validate_and_check_rate_limit db req today = (.ok user, db1)) :
    chat_completions env db logs req today = ⟨.error (500, errDetail), db1, logs, 0⟩ := by
  have hj : ¬ ("json" ∈ gatewayImports) := by decide
  simp only [chat_completions, h]
  rw [if_neg hj]

theorem completions_always_500 (env : PyEnv) (db : List Credential)
    (logs : List UsageLog) (req : GwRequest) (today : Nat) (user : UserInfo)
    (db1 : List Credential)
    (h : validate_and_check_rate_limit db req today = (.ok user, db1)) :
    completions env db logs req today = ⟨.error (500, errDetail), db1, logs, 0⟩ := by
  have hj : ¬ ("json" ∈ gatewayImports) := by decide
  simp only [completions, h]
  rw [if_neg hj]

/-- C3.  The module never imports json, so for every request that passes
authentication and the quota check, both completion handlers hit their
generic except branch: HTTP 500, zero upstream calls, no usage recorded,
whatever the body and the collaborators would have done. -/
theorem completion_handlers_raise_500 (env : PyEnv) (db : List Credential)
    (logs : List UsageLog) (req : GwRequest) (today : Nat) (user : UserInfo)
    (db1 : List Credential)
    (h : validate_and_check_rate_limit db req today = (.ok user, db1)) :
    "json" ∉ gatewayImports ∧
    chat_completions env db logs req today = ⟨.error (500, errDetail), db1, logs, 0⟩ ∧
    completions env db logs req today = ⟨.error (500, errDetail), db1, logs, 0⟩ :=
  ⟨by decide, chat_completions_always_500 env db logs req today user db1 h,
   completions_always_500 env db logs req today user db1 h⟩

/-- C3 witness: a fully concrete admitted request, with collaborators
that would all succeed, still yields 500 and no upstream call. -/
theorem completion_handlers_raise_500_witness :
    chat_completions
        ⟨fun _ => some "parsed", fun _ => some (200, some "resp"),
         fun _ _ => some (200, some "resp"), false⟩
        [⟨"id1", "alice", "alice@example.com", "key1", 100, 0, none, true⟩] []
        ⟨some "key1", none, "hello"⟩ 3 =
      ⟨.error (500, errDetail),
       [⟨"id1", "alice", "alice@example.com", "key1", 100, 0, none, true⟩], [], 0⟩ :=
  (completion_handlers_raise_500
    ⟨fun _ => some "parsed", fun _ => some (200, some "resp"),
     fun _ _ => some (200, some "resp"), false⟩
    [⟨"id1", "alice", "alice@example.com", "key1", 100, 0, none, true⟩] []
    ⟨some "key1", none, "hello"⟩ 3
    ⟨"id1", "alice", "alice@example.com", 100, 0⟩
    [⟨"id1", "alice", "alice@example.com", "key1", 100, 0, none, true⟩] (by rfl)).2.1

end Gateway

namespace LB

theorem pymin_unfold (key : String → Nat) (x y : String) (ys : List String) :
    pymin key x (y :: ys) = pymin key (if key y < key x then y else x) ys := rfl

theorem pymin_mem (key : String → Nat) (x : String) (xs : List String) :
    pymin key x xs ∈ x :: xs := by
  induction xs generalizing x with
  | nil => simp [pymin]
  | cons y ys ih =>
    rw [pymin_unfold]
    by_cases hc : key y < key x
    · rw [if_pos hc]
      rcases List.mem_cons.mp (ih y) with h | h
      · rw [h]
        exact List.mem_cons_of_mem x (List.mem_cons_self y ys)
      · exact List.mem_cons_of_mem x (List.mem_cons_of_mem y h)
    · rw [if_neg hc]
      rcases List.mem_cons.mp (ih x) with h | h
      · rw [h]
        exact List.mem_cons_self x (y :: ys)
      · exact List.mem_cons_of_mem x (List.mem_cons_of_mem y h)

theorem pymin_le (key : String → Nat) (x : String) (xs : List String) :
    ∀ z ∈ x :: xs, key (pymin key x xs) ≤ key z := by
  induction xs generalizing x with
  | nil =>
    intro z hz
    rw [List.mem_singleton.mp hz]
    simp [pymin]
  | cons y ys ih =>
    intro z hz
    rw [pymin_unfold]
    have hb_le_x : key (if key y < key x then y else x) ≤ key x := by
      by_cases hc : key y < key x
      · rw [if_pos hc]; exact Nat.le_of_lt hc
      · rw [if_neg hc]
    have hb_le_y : key (if key y < key x then y else x) ≤ key y := by
      by_cases hc : key y < key x
      · rw [if_pos hc]
      · rw [if_neg hc]; exact Nat.le_of_not_lt hc
    have hmin_b : key (pymin key (if key y < key x then y else x) ys) ≤
        key (if key y < key x then y else x) :=
      ih _ _ (List.mem_cons_self _ ys)
    rcases List.mem_cons.mp hz with hzx | hz2
    · rw [hzx]; exact Nat.le_trans hmin_b hb_le_x
    rcases List.mem_cons.mp hz2 with hzy | hzys
    · rw [hzy]; exact Nat.le_trans hmin_b hb_le_y
    · exact ih _ z (List.mem_cons_of_mem _ hzys)

theorem pymin_first (key : String → Nat) (x : String) (xs : List String) :
    ∃ l1 l2, x :: xs = l1 ++ pymin key x xs :: l2 ∧
      ∀ z ∈ l1, key (pymin key x xs) < key z := by
  induction xs generalizing x with
  | nil => exact ⟨[], [], rfl, by simp⟩
  | cons y ys ih =>
    rw [pymin_unfold]
    by_cases hc : key y < key x
    · rw [if_pos hc]
      obtain ⟨l1, l2, hsplit, hgt⟩ := ih y
      refine ⟨x :: l1, l2, ?_, ?_⟩
      · rw [List.cons_append, ← hsplit]
      · intro z hz
        rcases List.mem_cons.mp hz with hzx | hz1
        · rw [hzx]
          exact Nat.lt_of_le_of_lt (pymin_le key y ys y (List.mem_cons_self y ys)) hc
        · exact hgt z hz1
    · rw [if_neg hc]
      obtain ⟨l1, l2, hsplit, hgt⟩ := ih x
      cases l1 with
      | nil =>
        have hx : x = pymin key x ys := (List.cons.injEq _ _ _ _).mp hsplit |>.1
        refine ⟨[], y :: ys, ?_, by simp⟩
        rw [← hx]
        rfl
      | cons a l1t =>
        rw [List.cons_append] at hsplit
        have ha : a = x := ((List.cons.injEq _ _ _ _).mp hsplit).1.symm
        have htail : ys = l1t ++ pymin key x ys :: l2 :=
          ((List.cons.injEq _ _ _ _).mp hsplit).2
        have hltx : key (pymin key x ys) < key x := by
          have := hgt a (List.mem_cons_self a l1t)
          rwa [ha] at this
        refine ⟨x :: y :: l1t, l2, ?_, ?_⟩
        · rw [List.cons_append, List.cons_append, ← htail]
        · intro z hz
          rcases List.mem_cons.mp hz with hzx | hz1
          · rw [hzx]; exact hltx
          rcases List.mem_cons.mp hz1 with hzy | hz2
          · rw [hzy]
            exact Nat.lt_of_lt_of_le hltx (Nat.le_of_not_lt hc)
          · exact hgt z (List.mem_cons_of_mem a hz2)

/-- C5.  With at least one healthy gateway, the "round_robin" strategy
deterministically returns the first healthy gateway (in registration
order) whose request count is minimal, and the new state increments
exactly the counter of that gateway. -/
theorem round_robin_is_least_loaded (st : LBState) (g : String) (gs : List String)
    (r : Nat) (hne : get_healthy_gateways st = g :: gs) :
    select_gateway st "round_robin" r =
      .ok (pymin st.request_counts g gs, incrCount st (pymin st.request_counts g gs)) ∧
    pymin st.request_counts g gs ∈ g :: gs ∧
    (∀ h ∈ g :: gs,
      st.request_counts (pymin st.request_counts g gs) ≤ st.request_counts h) ∧
    (∃ l1 l2, g :: gs = l1 ++ pymin st.request_counts g gs :: l2 ∧
      ∀ z ∈ l1,
        st.request_counts (pymin st.request_counts g gs) < st.request_counts z) ∧
    (incrCount st (pymin st.request_counts g gs)).request_counts
        (pymin st.request_counts g gs) =
      st.request_counts (pymin st.request_counts g gs) + 1 ∧
    ∀ h, h ≠ pymin st.request_counts g gs →
      (incrCount st (pymin st.request_counts g gs)).request_counts h =
        st.request_counts h := by
  refine ⟨?_, pymin_mem _ g gs, pymin_le _ g gs, pymin_first _ g gs, ?_, ?_⟩
  · simp [select_gateway, hne]
  · simp [incrCount]
  · intro h hh
    simp [incrCount, hh]

/-- C5 witness: among registered gateways A, B, C with counts 5, 3, 3 and
all healthy, B (the first with the tied minimum 3) is selected. -/
theorem round_robin_is_least_loaded_witness :
    select_gateway
        ⟨["A", "B", "C"], fun _ => true, fun g => if g = "A" then 5 else 3⟩
        "round_robin" 0 =
      .ok (pymin (fun g => if g = "A" then 5 else 3) "A" ["B", "C"],
        incrCount ⟨["A", "B", "C"], fun _ => true, fun g => if g = "A" then 5 else 3⟩
          (pymin (fun g => if g = "A" then 5 else 3) "A" ["B", "C"])) ∧
    pymin (fun g => if g = "A" then 5 else 3) "A" ["B", "C"] = "B" :=
  ⟨(round_robin_is_least_loaded
      ⟨["A", "B", "C"], fun _ => true, fun g => if g = "A" then 5 else 3⟩
      "A" ["B", "C"] 0 (by rfl)).1, by decide⟩

/-- C6.  The "least_connections" strategy, every unrecognized strategy
name, and a call leaving the strategy at its default all behave exactly
like "round_robin" (the least-loaded selection): same choice, same
counter update. -/
theorem least_connections_and_default_alias (st : LBState) (s : String) (r : Nat)
    (h : s = "least_connections" ∨ (s ≠ "round_robin" ∧ s ≠ "random")) :
    select_gateway st s r = select_gateway st "round_robin" r ∧
    select_gateway_default st r = select_gateway st "round_robin" r := by
  refine ⟨?_, rfl⟩
  unfold select_gateway
  cases hg : get_healthy_gateways st with
  | nil => rfl
  | cons g gs =>
    rcases h with h | ⟨h1, h2⟩
    · rw [h]
      rfl
    · dsimp only
      rw [if_neg h1, if_neg h2]
      by_cases h3 : s = "least_connections"
      · rw [if_pos h3]
        rfl
      · rw [if_neg h3]
        rfl

/-- C6 witness: at a concrete state, strategy "least_connections" selects
and updates exactly as "round_robin" does. -/
theorem least_connections_alias_witness :
    select_gateway ⟨["A", "B"], fun _ => true, fun _ => 0⟩ "least_connections" 0 =
      select_gateway ⟨["A", "B"], fun _ => true, fun _ => 0⟩ "round_robin" 0 :=
  (least_connections_and_default_alias ⟨["A", "B"], fun _ => true, fun _ => 0⟩
    "least_connections" 0 (Or.inl rfl)).1

/-- C7.  When every registered gateway is unhealthy, select_gateway
raises the 503 no-healthy-gateway error before reaching any strategy, and
proxy_all answers 503 with no upstream attempt and the state unchanged
(in particular no counter is incremented). -/
theorem all_unhealthy_yields_503 (env : String → String → Option (Nat × String))
    (st : LBState) (r : Nat) (path : String)
    (h : ∀ g ∈ st.gateways, st.health_status g = false) :
    select_gateway st "round_robin" r = .error .noHealthy ∧
    LBError.status .noHealthy = 503 ∧
    proxy_all env st r path =
      ⟨.error (503, "Service temporarily unavailable"), st, []⟩ := by
  have hemp : get_healthy_gateways st = [] := by
    unfold get_healthy_gateways
    rw [List.filter_eq_nil_iff]
    intro a ha
    simp [h a ha]
  have hsel : select_gateway st "round_robin" r = .error .noHealthy := by
    simp [select_gateway, hemp]
  exact ⟨hsel, rfl, by simp [proxy_all, hsel]⟩

/-- C7 witness: two registered gateways, both unhealthy. -/
theorem all_unhealthy_yields_503_witness :
    select_gateway ⟨["A", "B"], fun _ => false, fun _ => 0⟩ "round_robin" 0 =
      .error .noHealthy ∧
    LBError.status .noHealthy = 503 ∧
    proxy_all (fun _ _ => some (200, "ok")) ⟨["A", "B"], fun _ => false, fun _ => 0⟩
        0 "/v1/models" =
      ⟨.error (503, "Service temporarily unavailable"),
       ⟨["A", "B"], fun _ => false, fun _ => 0⟩, []⟩ :=
  all_unhealthy_yields_503 (fun _ _ => some (200, "ok"))
    ⟨["A", "B"], fun _ => false, fun _ => 0⟩ 0 "/v1/models" (by decide)

end LB

namespace LB

/-- C8 counterexample: one healthy gateway whose upstream call fails.
proxy_request raises 502, but proxy_all catches every exception and
answers 503, so the caller never sees the 502 the claim promises. -/
theorem upstream_error_reaches_caller_as_503 :
    respStatus (proxy_all (fun _ _ => none)
        ⟨["A"], fun _ => true, fun _ => 0⟩ 0 "/v1/chat/completions").response = 503 ∧
    (503 : Nat) ≠ 502 := by
  constructor
  · rfl
  · decide

/-- C8 amended.  On upstream failure proxy_request maps the error to 502
with a single attempt, no retry and no failover; but the catch-all in
proxy_all converts that exception, so the caller receives 503 Service
temporarily unavailable. -/
theorem upstream_error_502_wrapped_into_503
    (env : String → String → Option (Nat × String)) (st st1 : LBState)
    (r : Nat) (path g : String)
    (hsel : select_gateway st "round_robin" r = .ok (g, st1))
    (hfail : env g path = none) :
    proxy_request env g path = .error (502, "Gateway error") ∧
    proxy_all env st r path =
      ⟨.error (503, "Service temporarily unavailable"), st1, [(g, path)]⟩ := by
  have hpr : proxy_request env g path = .error (502, "Gateway error") := by
    simp [proxy_request, hfail]
  exact ⟨hpr, by simp [proxy_all, hsel, hpr]⟩

/-- C8 witness: concrete one-gateway state with a failing upstream. -/
theorem upstream_error_502_wrapped_witness :
    proxy_request (fun _ _ => none) "A" "/v1/completions" =
      .error (502, "Gateway error") :=
  (upstream_error_502_wrapped_into_503 (fun _ _ => none)
    ⟨["A"], fun _ => true, fun _ => 0⟩
    (incrCount ⟨["A"], fun _ => true, fun _ => 0⟩ "A") 0 "/v1/completions" "A"
    (by rfl) (by rfl)).1

end LB

namespace Gateway

/-- C9: the code, evaluated where the claim demands a swallowed failure.
A valid under-quota key requests /v1/models, the upstream GET succeeds
with status 200, and the usage-store write then raises.  log_usage has no
exception handling of its own, so the generic except branch of the handler
turns the already-successful call into HTTP 500 ("Error connecting to
vLLM"), nothing is logged, and the upstream response is discarded. -/
theorem log_usage_failure_turns_success_into_500 :
    get_models
        ⟨fun _ => none, fun _ => some (200, some "model-list"), fun _ _ => none, true⟩
        [⟨"id1", "alice", "alice@example.com", "key1", 100, 0, none, true⟩] []
        ⟨some "key1", none, ""⟩ 3 =
      ⟨.error (500, errDetail),
       [⟨"id1", "alice", "alice@example.com", "key1", 100, 0, none, true⟩], [], 1⟩ := by
  rfl

/-- C10 counterexample: a fully admitted chat-completions call (the gate
returns ok) whose collaborators would all succeed still records no cost
at all - the usage_logs table stays empty - so the recorded cost is not
the claimed combined-length-over-4 value. -/
theorem admitted_chat_call_records_no_cost :
    (validate_and_check_rate_limit
        [⟨"id1", "alice", "alice@example.com", "key1", 100, 0, none, true⟩]
        ⟨some "key1", none, "hello"⟩ 3).1 =
      .ok ⟨"id1", "alice", "alice@example.com", 100, 0⟩ ∧
    (chat_completions
        ⟨fun _ => some "parsed", fun _ => some (200, some "resp"),
         fun _ _ => some (200, some "resp"), false⟩
        [⟨"id1", "alice", "alice@example.com", "key1", 100, 0, none, true⟩] []
        ⟨some "key1", none, "hello"⟩ 3).logs = [] := by
  exact ⟨rfl, rfl⟩

/-- C10 amended.  The metadata-only models route records exactly one
usage row with cost 0; the two inference handlers record nothing at all,
because the missing json import raises before their recording step ever
runs (their dead cost expression would be
len(str(request_data)) / 4 + len(str(response_data)) / 4). -/
theorem recorded_cost_zero_for_models_none_for_inference (env : PyEnv)
    (db : List Credential) (logs : List UsageLog) (req : GwRequest) (today : Nat)
    (user : UserInfo) (db1 : List Credential) (st0 : Nat) (j0 : Option String)
    (h : validate_and_check_rate_limit db req today = (.ok user, db1))
    (hup : env.upstream_get "/models" = some (st0, j0))
    (hlog : env.log_usage_fails = false) :
    (get_models env db logs req today).logs =
      logs ++ [⟨user.id, "/v1/models", 0, today⟩] ∧
    (chat_completions env db logs req today).logs = logs ∧
    (completions env db logs req today).logs = logs := by
  refine ⟨?_, ?_, ?_⟩
  · simp only [get_models, h, hup, hlog, Bool.false_eq_true, if_false, log_usage]
    cases j0 <;> rfl
  · rw [chat_completions_always_500 env db logs req today user db1 h]
  · rw [completions_always_500 env db logs req today user db1 h]

/-- C10 witness: concrete models call recording the single cost-0 row. -/
theorem recorded_cost_zero_witness :
    (get_models
        ⟨fun _ => some "parsed", fun _ => some (200, some "model-list"),
         fun _ _ => some (200, some "resp"), false⟩
        [⟨"id1", "alice", "alice@example.com", "key1", 100, 0, none, true⟩] []
        ⟨some "key1", none, ""⟩ 3).logs = [] ++ [⟨"id1", "/v1/models", 0, 3⟩] :=
  (recorded_cost_zero_for_models_none_for_inference
    ⟨fun _ => some "parsed", fun _ => some (200, some "model-list"),
     fun _ _ => some (200, some "resp"), false⟩
    [⟨"id1", "alice", "alice@example.com", "key1", 100, 0, none, true⟩] []
    ⟨some "key1", none, ""⟩ 3
    ⟨"id1", "alice", "alice@example.com", 100, 0⟩
    [⟨"id1", "alice", "alice@example.com", "key1", 100, 0, none, true⟩]
    200 (some "model-list") (by rfl) (by rfl) (by rfl)).1

end Gateway
